import Mathlib

/-!
Verification of the document confidentiality-and-integrity pipeline of the
repository (backend/controllers/documentController.js and its routes).

The controller source is embedded directly.  The crypto utilities it calls
(utils/crypto.js, utils/signDocument.js, utils/helper.js), the Mongoose models
and the record store are not among the available sources; they are modelled
from the specification, each such definition marked `Modelled from the spec:`.
Handlers are embedded as pure functions from an explicit store and explicit
randomness to the ordered list of emitted events (error continuations, audit
log writes, responses) and the resulting store.
-/

namespace DocPipeline

/-- A byte sequence; well-formed byte sequences have every entry below 256. -/
abbrev Bytes := List Nat

/-- Folds a byte list into a value below 256, used as the keystream seed of the
modelled cipher. -/
def keySum (l : Bytes) : Nat := l.foldl (fun a b => (a + b) % 256) 0

/-- Modelled from the spec: HashEngine.digest, a deterministic pure content
digest of the document bytes (utils/crypto.generateHash is not in the sources). -/
def generateHash (p : Bytes) : Nat :=
  p.foldl (fun h b => (h * 131 + b + 1) % 2 ^ 64) 5381

/-- Modelled from the spec: the private signing secret held by the
SignatureEngine, never serialized into any record (utils/signDocument is not in
the sources). -/
def signingSecret : Nat := 2718281828

/-- Modelled from the spec: the fingerprint derived from the signing keypair's
public component. -/
def publicKeyFingerprintVal : Nat := 314159

/-- Modelled from the spec: SignatureEngine.sign, a detached signature over the
raw document bytes together with the public-key fingerprint
(utils/signDocument.createDocumentSignature). -/
def createDocumentSignature (p : Bytes) : Nat × Nat :=
  ((generateHash p + signingSecret) % 2 ^ 64, publicKeyFingerprintVal)

/-- Modelled from the spec: SignatureEngine.verify recomputes whether the
signature is valid over the bytes under the engine's own key and never throws
(utils/signDocument.verifyDocumentSignature). -/
def verifyDocumentSignature (p : Bytes) (s : Nat) : Bool :=
  s == (generateHash p + signingSecret) % 2 ^ 64

/-- Modelled from the spec: the operator secret supplied at process start
(documentController.js lines 22-25 read it from the environment). -/
def masterSecret : Bytes := [109, 107]

/-- Modelled from the spec: the 32-byte master key, derived once from the
operator secret via a cryptographic hash (documentController.js lines 22-25). -/
def masterKey : Bytes :=
  (List.range 32).map (fun i => generateHash (masterSecret ++ [i]) % 256)

/-- Modelled from the spec: EnvelopeCipher document encryption.  The fresh
random iv that utils/crypto.encrypt draws internally is an explicit input here,
and it is returned beside the ciphertext exactly as the source returns the
pair of encrypted data and iv. -/
def encrypt (p key rndIv : Bytes) : Bytes × Bytes :=
  (p.map (fun b => (b + keySum key + keySum rndIv) % 256), rndIv)

/-- Modelled from the spec: EnvelopeCipher document decryption, inverting
encrypt given the exact key and iv; a wrong key or iv yields garbage bytes
(utils/crypto.decrypt). -/
def decrypt (c key iv : Bytes) : Bytes :=
  c.map (fun b => (b + 512 - (keySum key + keySum iv)) % 256)

/-- The failure the modelled key-unwrap primitive raises. -/
inductive CryptoError where
  | keyUnwrapFailure
deriving DecidableEq, Repr

/-- Modelled from the spec: EnvelopeCipher key wrapping, the per-document key
encrypted under the master key; a leading tag models the primitive rejecting an
unwrap under the wrong master key (utils/crypto.encryptKey). -/
def encryptKey (k m : Bytes) : Bytes :=
  keySum m :: k.map (fun b => (b + keySum m) % 256)

/-- Modelled from the spec: EnvelopeCipher key unwrapping, recovering the
per-document key and failing when the wrapped key was not sealed under this
master key (utils/crypto.decryptKey). -/
def decryptKey (w m : Bytes) : Except CryptoError Bytes :=
  match w with
  | [] => .error .keyUnwrapFailure
  | t :: rest =>
      if t = keySum m then
        .ok (rest.map (fun b => (b + 256 - keySum m) % 256))
      else
        .error .keyUnwrapFailure

/-- Modelled from the spec: the persisted SealedDocument record with the fields
uploadDocument stores (models/document.js is not in the sources). -/
structure Document where
  userId : Nat
  originalName : String
  mimeType : String
  encryptedData : Bytes
  iv : Bytes
  encryptedKey : Bytes
  sha256Hash : Nat
  digitalSignature : Nat
  publicKeyFingerprint : Nat
deriving DecidableEq, Repr

/-- The multer memory-storage file handed to uploadDocument. -/
structure UploadFile where
  buffer : Bytes
  originalname : String
  mimetype : String
  size : Nat
deriving DecidableEq, Repr

/-- One audit-log record as written by Log.create in the controller
(models/log.js is not in the sources; the fields are those the controller
passes: action kind, actor, target document, and the signatureVerified detail). -/
structure LogEntry where
  action : String
  userId : Nat
  documentId : Option Nat
  userName : String
  signatureVerified : Option Bool
deriving DecidableEq, Repr

/-- An observable effect of a handler, in emission order: an error passed to
the next continuation, an audit-log write, or a response. -/
inductive Event where
  | nextError (msg : String) (status : Nat)
  | logEvent (entry : LogEntry)
  | jsonVerdict (status : Nat) (integrity authenticity : Bool)
  | jsonCreated (status : Nat) (docId : Nat)
  | sendBytes (status : Nat) (body : Bytes)
  | jsonDocMeta (status : Nat) (docId : Nat) (name : String)
  | endNoContent (status : Nat)
deriving DecidableEq, Repr

/-- The record store: document records keyed by an opaque identifier. -/
abbrev Store := List (Nat × Document)

/-- Equality of unwrap results is decidable, so witnesses can be evaluated. -/
instance exceptDecEq {ε α : Type} [DecidableEq ε] [DecidableEq α] :
    DecidableEq (Except ε α) := fun x y =>
  match x, y with
  | .ok a, .ok b =>
      if h : a = b then isTrue (by rw [h])
      else isFalse (by intro hc; injection hc; contradiction)
  | .error a, .error b =>
      if h : a = b then isTrue (by rw [h])
      else isFalse (by intro hc; injection hc; contradiction)
  | .ok _, .error _ => isFalse (by intro hc; injection hc)
  | .error _, .ok _ => isFalse (by intro hc; injection hc)

/-- Modelled from the spec: the record-store lookup scoped to the owning user,
as Document.findOne with an id and userId filter is used in the controller. -/
def findDocument (store : Store) (docId userId : Nat) : Option (Nat × Document) :=
  store.find? (fun p => p.1 == docId && p.2.userId == userId)

/-- Message of the TypeError raised when the missing-return guard of
uploadDocument falls through and destructures the absent req.file
(documentController.js lines 35-39). -/
def destructureNullMsg : String :=
  "Cannot destructure property buffer of req.file as it is undefined"

/-- Message of the TypeError raised when the missing-return guard of
downloadDocument falls through and reads encryptedKey of a null record
(documentController.js lines 203-207). -/
def nullReadMsg : String :=
  "Cannot read properties of null (reading encryptedKey)"

/-- Message of the IntegrityError thrown by utils/helper.verifyDocumentIntegrity
and surfaced verbatim by the verify handler (documentController.js line 179). -/
def integrityErrMsg : String :=
  "Document integrity check failed - content may have been tampered with"

/-- Modelled from the spec: message of the error the cipher primitive raises
when the wrapped key cannot be recovered under the current master key. -/
def keyUnwrapMsg : String := "bad decrypt"

/-- The record uploadDocument persists (documentController.js lines 40-57):
digest and detached signature computed over the original plaintext, ciphertext
and iv from the fresh per-document key, and that key wrapped under the master
key. -/
def mkSealedDocument (userId : Nat) (f : UploadFile) (rndKey rndIv : Bytes) : Document :=
  { userId := userId
    originalName := f.originalname
    mimeType := f.mimetype
    encryptedData := (encrypt f.buffer rndKey rndIv).1
    iv := (encrypt f.buffer rndKey rndIv).2
    encryptedKey := encryptKey rndKey masterKey
    sha256Hash := generateHash f.buffer
    digitalSignature := (createDocumentSignature f.buffer).1
    publicKeyFingerprint := (createDocumentSignature f.buffer).2 }

/-- documentController.uploadDocument (lines 32-91).  The randomness the source
draws (crypto.randomBytes for the per-document key and the iv drawn inside
encrypt) is an explicit input; createOk models whether Document.create
succeeds.  The guard on line 35 calls next without returning, so with no file
present the handler continues, the destructuring on line 39 throws, and the
catch emits a second wrapped error. -/
def uploadDocument (store : Store) (userId : Nat) (userName : String)
    (file : Option UploadFile) (rndKey rndIv : Bytes) (newId : Nat)
    (createOk : Bool) : List Event × Store :=
  match file with
  | none =>
      ([.nextError "No file uploaded" 400,
        .nextError ("Upload failed: " ++ destructureNullMsg) 500], store)
  | some f =>
      if createOk then
        ([.logEvent { action := "UPLOAD", userId := userId, documentId := some newId, userName := userName, signatureVerified := some true },
          .jsonCreated 201 newId],
         store ++ [(newId, mkSealedDocument userId f rndKey rndIv)])
      else
        ([.nextError "Upload failed: database error" 500], store)

/-- documentController.downloadDocument (lines 197-265).  The guard on line 203
calls next without returning, so on a missing record the handler continues,
reading encryptedKey of null throws, and the catch on line 262 wraps it; every
error thrown inside the try lands in that catch as a wrapped 500.  On an
invalid signature the handler logs DOWNLOAD_VERIFICATION_FAILED, whose
signatureVerified detail is the literal true the source passes on line 233,
then throws instead of sending the plaintext. -/
def downloadDocument (store : Store) (userId : Nat) (userName : String)
    (docId : Nat) : List Event :=
  match findDocument store docId userId with
  | none =>
      [.nextError "File not found" 404,
       .nextError ("Download failed: " ++ nullReadMsg) 500]
  | some (id, document) =>
      match decryptKey document.encryptedKey masterKey with
      | .error _ => [.nextError ("Download failed: " ++ keyUnwrapMsg) 500]
      | .ok aesKey =>
          let decryptedData := decrypt document.encryptedData aesKey document.iv
          if generateHash decryptedData == document.sha256Hash then
            if verifyDocumentSignature decryptedData document.digitalSignature then
              [.logEvent { action := "DOWNLOAD", userId := userId, documentId := some id, userName := userName, signatureVerified := some true },
               .sendBytes 200 decryptedData]
            else
              [.logEvent { action := "DOWNLOAD_VERIFICATION_FAILED", userId := userId, documentId := some id, userName := userName, signatureVerified := some true },
               .nextError "Download failed: Document signature verification failed" 500]
          else
            [.nextError ("Download failed: " ++ integrityErrMsg) 500]

/-- documentController.verifyDocumentSignaturee (lines 100-190).  validIdFormat
models the ObjectId format check.  Records created by uploadDocument always
carry every crypto field, so the missing-required-data guard of lines 115-125
cannot fire on this store.  An IntegrityError from the integrity check maps to
the dedicated 400 error; any other crypto failure maps to the processing-error
500.  No path writes an audit-log entry. -/
def verifyDocumentSignaturee (store : Store) (userId : Nat) (docId : Nat)
    (validIdFormat : Bool) : List Event :=
  if !validIdFormat then
    [.nextError "Invalid document ID format" 400]
  else
    match findDocument store docId userId with
    | none => [.nextError "Document not found or access denied" 404]
    | some (_, document) =>
        match decryptKey document.encryptedKey masterKey with
        | .error _ => [.nextError "Document verification processing error" 500]
        | .ok aesKey =>
            let decryptedData := decrypt document.encryptedData aesKey document.iv
            if generateHash decryptedData == document.sha256Hash then
              if verifyDocumentSignature decryptedData document.digitalSignature then
                [.jsonVerdict 200 true true]
              else
                [.jsonVerdict 200 true false]
            else
              [.nextError integrityErrMsg 400]

/-- JS String.prototype.trim, modelled on the character list so it evaluates
inside the kernel. -/
def jsTrim (s : String) : String :=
  String.mk (((s.data.dropWhile Char.isWhitespace).reverse.dropWhile Char.isWhitespace).reverse)

/-- documentController.updateDocument (lines 317-363): validates the new name,
updates only originalName on the matching record, logs UPDATE and responds; the
catch wraps thrown errors as update-failed messages keeping their status. -/
def updateDocument (store : Store) (userId : Nat) (userName : String)
    (docId : Nat) (originalName : Option String) : List Event × Store :=
  match originalName with
  | none => ([.nextError "Update failed: Document name is required" 400], store)
  | some n =>
      if jsTrim n = "" then
        ([.nextError "Update failed: Document name is required" 400], store)
      else
        match findDocument store docId userId with
        | none =>
            ([.nextError "Update failed: Document not found or unauthorized" 404], store)
        | some (id, _) =>
            ([.logEvent { action := "UPDATE", userId := userId, documentId := some id, userName := userName, signatureVerified := none },
              .jsonDocMeta 200 id (jsTrim n)],
             store.map (fun p =>
               if p.1 == docId && p.2.userId == userId then
                 (p.1, { p.2 with originalName := jsTrim n })
               else p))

/-- documentController.deleteDocument (lines 370-407): deletes the matching
record, logs DELETE and responds 204; the catch wraps thrown errors keeping
their status. -/
def deleteDocument (store : Store) (userId : Nat) (userName : String)
    (docId : Nat) : List Event × Store :=
  match findDocument store docId userId with
  | none =>
      ([.nextError "Deletion failed: Document not found or unauthorized" 404], store)
  | some (id, _) =>
      ([.logEvent { action := "DELETE", userId := userId, documentId := some id, userName := userName, signatureVerified := none },
        .endNoContent 204],
       store.filter (fun p => !(p.1 == docId && p.2.userId == userId)))

/-- True when the handler released plaintext bytes to the caller. -/
def sendsPlaintext (evs : List Event) : Bool :=
  evs.any (fun e => match e with | .sendBytes _ _ => true | _ => false)

/-- True when the handler wrote an audit-log entry. -/
def hasLog (evs : List Event) : Bool :=
  evs.any (fun e => match e with | .logEvent _ => true | _ => false)

/-- Concrete file used to witness the round trip. -/
def c1File : UploadFile :=
  { buffer := [104, 101, 108, 108, 111], originalname := "hello.txt",
    mimetype := "text/plain", size := 5 }

/-- Plaintext of the bad-signature document below. -/
def c2Plain : Bytes := [1, 2, 3]

/-- Per-document key of the bad-signature document below. -/
def c2Key : Bytes := [10, 20]

/-- Iv of the bad-signature document below. -/
def c2Iv : Bytes := [7]

/-- A sealed record that decrypts cleanly and passes the digest check but whose
stored signature is not one the engine produced. -/
def c2Doc : Document :=
  { userId := 1, originalName := "a", mimeType := "t",
    encryptedData := (encrypt c2Plain c2Key c2Iv).1, iv := c2Iv,
    encryptedKey := encryptKey c2Key masterKey,
    sha256Hash := generateHash c2Plain, digitalSignature := 0,
    publicKeyFingerprint := 0 }

/-- Plaintext of the tampered document below. -/
def c3Plain : Bytes := [5, 6]

/-- A sealed record whose stored digest is not the digest of its plaintext. -/
def c3Doc : Document :=
  { userId := 2, originalName := "b", mimeType := "t",
    encryptedData := (encrypt c3Plain c2Key c2Iv).1, iv := c2Iv,
    encryptedKey := encryptKey c2Key masterKey,
    sha256Hash := generateHash c3Plain + 1,
    digitalSignature := (createDocumentSignature c3Plain).1,
    publicKeyFingerprint := 0 }

/-- A sealed record whose wrapped key was not sealed under the current master
key, so unwrapping fails. -/
def c4Doc : Document :=
  { userId := 3, originalName := "c", mimeType := "t",
    encryptedData := [1], iv := [2], encryptedKey := [999],
    sha256Hash := 0, digitalSignature := 0, publicKeyFingerprint := 0 }

/-- Concrete file used to witness seal atomicity. -/
def c6File : UploadFile :=
  { buffer := [42], originalname := "d.bin", mimetype := "application/octet-stream", size := 1 }

/-- An uploaded file with an empty buffer: present, hence truthy, so the
no-file guard of uploadDocument does not reject it. -/
def c9File : UploadFile :=
  { buffer := [], originalname := "empty.txt", mimetype := "text/plain", size := 0 }

/-- Concrete file sealed into the record renamed in the C7 witness. -/
def c7File : UploadFile :=
  { buffer := [77, 78], originalname := "old.pdf", mimetype := "application/pdf", size := 2 }

/-- Concrete sealed record renamed in the C7 witness. -/
def c7Doc : Document := mkSealedDocument 4 c7File [13] [14]

/-- Concrete file sealed into the record verified in the C5 counterexample. -/
def c5File : UploadFile :=
  { buffer := [65, 66], originalname := "audit.txt", mimetype := "text/plain", size := 2 }

/-- Concrete well-sealed record verified in the C5 counterexample. -/
def c5Doc : Document := mkSealedDocument 1 c5File [11] [12]

/-- The keystream seed is always a single byte. -/
theorem keySum_lt (l : Bytes) : keySum l < 256 := by
  have h : ∀ (l : Bytes) (a : Nat), a < 256 →
      l.foldl (fun a b => (a + b) % 256) a < 256 := by
    intro l
    induction l with
    | nil => intro a ha; simpa using ha
    | cons x xs ih =>
        intro a ha
        exact ih _ (Nat.mod_lt _ (by omega))
  exact h l 0 (by omega)

/-- Unwrapping a key wrapped under the same master key recovers it. -/
theorem decryptKey_encryptKey (k m : Bytes) (hk : ∀ b ∈ k, b < 256) :
    decryptKey (encryptKey k m) m = .ok k := by
  simp only [decryptKey, encryptKey, eq_self_iff_true, if_true]
  congr 1
  rw [List.map_map]
  have _hs := keySum_lt m
  conv_rhs => rw [← List.map_id k]
  refine List.map_congr_left ?_
  intro b hb
  have hb256 := hk b hb
  simp only [Function.comp_apply, id_eq]
  omega

/-- Decrypting with the exact key and iv inverts encryption. -/
theorem decrypt_encrypt (p key rndIv : Bytes) (hp : ∀ b ∈ p, b < 256) :
    decrypt (encrypt p key rndIv).1 key rndIv = p := by
  unfold decrypt encrypt
  simp only
  rw [List.map_map]
  have _h1 := keySum_lt key
  have _h2 := keySum_lt rndIv
  conv_rhs => rw [← List.map_id p]
  refine List.map_congr_left ?_
  intro b hb
  have hb256 := hp b hb
  simp only [Function.comp_apply, id_eq]
  omega

/-- A signature produced by the engine verifies under the engine. -/
theorem verify_createDocumentSignature (p : Bytes) :
    verifyDocumentSignature p (createDocumentSignature p).1 = true := by
  simp [verifyDocumentSignature, createDocumentSignature]

/-- The byte shift of the modelled wrap is injective on well-formed keys. -/
theorem shift_map_inj (s : Nat) :
    ∀ (k1 k2 : Bytes), (∀ b ∈ k1, b < 256) → (∀ b ∈ k2, b < 256) →
      k1.map (fun b => (b + s) % 256) = k2.map (fun b => (b + s) % 256) → k1 = k2 := by
  intro k1
  induction k1 with
  | nil =>
      intro k2 _ _ h
      cases k2 with
      | nil => rfl
      | cons y ys => simp at h
  | cons x xs ih =>
      intro k2 h1 h2 h
      cases k2 with
      | nil => simp at h
      | cons y ys =>
          simp only [List.map_cons, List.cons.injEq] at h
          have hx : x < 256 := h1 x (by simp)
          have hy : y < 256 := h2 y (by simp)
          have hxy : x = y := by omega
          have hrest : xs = ys :=
            ih ys (fun b hb => h1 b (by simp [hb])) (fun b hb => h2 b (by simp [hb])) h.2
          rw [hxy, hrest]

/-- Key wrapping under a fixed master key is injective on well-formed keys. -/
theorem encryptKey_inj (m : Bytes) (k1 k2 : Bytes)
    (h1 : ∀ b ∈ k1, b < 256) (h2 : ∀ b ∈ k2, b < 256)
    (h : encryptKey k1 m = encryptKey k2 m) : k1 = k2 := by
  unfold encryptKey at h
  simp only [List.cons.injEq, true_and] at h
  exact shift_map_inj (keySum m) k1 k2 h1 h2 h

/-- C1: sealing any plaintext and then opening the sealed document (the download
handler for the bytes, the verify handler for the verdict) returns exactly the
original plaintext and a verdict with integrity and authenticity both true. -/
theorem c1_seal_open_roundtrip (userId newId : Nat) (userName : String)
    (f : UploadFile) (rndKey rndIv : Bytes)
    (hk : ∀ b ∈ rndKey, b < 256) (hp : ∀ b ∈ f.buffer, b < 256) :
    downloadDocument (uploadDocument [] userId userName (some f) rndKey rndIv newId true).2
        userId userName newId =
      [.logEvent { action := "DOWNLOAD", userId := userId, documentId := some newId, userName := userName, signatureVerified := some true },
       .sendBytes 200 f.buffer] ∧
    verifyDocumentSignaturee (uploadDocument [] userId userName (some f) rndKey rndIv newId true).2
        userId newId true =
      [.jsonVerdict 200 true true] := by
  have hstore : (uploadDocument [] userId userName (some f) rndKey rndIv newId true).2 =
      [(newId, mkSealedDocument userId f rndKey rndIv)] := rfl
  have hfind : findDocument [(newId, mkSealedDocument userId f rndKey rndIv)] newId userId =
      some (newId, mkSealedDocument userId f rndKey rndIv) := by
    simp [findDocument, List.find?, mkSealedDocument]
  have hkey : decryptKey (mkSealedDocument userId f rndKey rndIv).encryptedKey masterKey =
      .ok rndKey := decryptKey_encryptKey rndKey masterKey hk
  have hdec : decrypt (mkSealedDocument userId f rndKey rndIv).encryptedData rndKey
      (mkSealedDocument userId f rndKey rndIv).iv = f.buffer :=
    decrypt_encrypt f.buffer rndKey rndIv hp
  have hsig : verifyDocumentSignature f.buffer
      (mkSealedDocument userId f rndKey rndIv).digitalSignature = true :=
    verify_createDocumentSignature f.buffer
  constructor
  · rw [hstore]
    simp only [downloadDocument, hfind, hkey, hdec]
    simp [mkSealedDocument, verify_createDocumentSignature]
  · rw [hstore]
    simp only [verifyDocumentSignaturee, Bool.not_true, Bool.false_eq_true, if_false,
      hfind, hkey, hdec]
    simp [mkSealedDocument, verify_createDocumentSignature]

/-- C1 witness: the round trip evaluated on a concrete five-byte plaintext. -/
theorem c1_seal_open_roundtrip_witness :
    downloadDocument (uploadDocument [] 1 "alice" (some c1File) [3, 4] [9] 5 true).2 1 "alice" 5 =
      [.logEvent { action := "DOWNLOAD", userId := 1, documentId := some 5, userName := "alice", signatureVerified := some true },
       .sendBytes 200 [104, 101, 108, 108, 111]] ∧
    verifyDocumentSignaturee (uploadDocument [] 1 "alice" (some c1File) [3, 4] [9] 5 true).2 1 5 true =
      [.jsonVerdict 200 true true] :=
  c1_seal_open_roundtrip 1 5 "alice" c1File [3, 4] [9] (by decide) (by decide)

/-- C2 counterexample: on a stored document whose decryption and digest check
succeed while the signature does not verify, the download handler does not
return the plaintext; it logs a verification failure and aborts with an error,
so open does not merely downgrade the verdict. -/
theorem c2_counterexample :
    decryptKey c2Doc.encryptedKey masterKey = .ok c2Key ∧
    generateHash (decrypt c2Doc.encryptedData c2Key c2Doc.iv) = c2Doc.sha256Hash ∧
    verifyDocumentSignature (decrypt c2Doc.encryptedData c2Key c2Doc.iv)
      c2Doc.digitalSignature = false ∧
    sendsPlaintext (downloadDocument [(7, c2Doc)] 1 "u" 7) = false ∧
    downloadDocument [(7, c2Doc)] 1 "u" 7 =
      [.logEvent { action := "DOWNLOAD_VERIFICATION_FAILED", userId := 1, documentId := some 7, userName := "u", signatureVerified := some true },
       .nextError "Download failed: Document signature verification failed" 500] := by
  decide

/-- C2 amended: when decryption and the digest check succeed but the signature
does not verify, the verify endpoint does not abort and downgrades the verdict
to integrity true with authenticity false, while the download endpoint aborts
with a signature-failure error and never returns the plaintext. -/
theorem c2_amended (store : Store) (userId docId id : Nat) (userName : String)
    (document : Document) (aesKey : Bytes)
    (hfind : findDocument store docId userId = some (id, document))
    (hkey : decryptKey document.encryptedKey masterKey = .ok aesKey)
    (hhash : generateHash (decrypt document.encryptedData aesKey document.iv) =
      document.sha256Hash)
    (hsig : verifyDocumentSignature (decrypt document.encryptedData aesKey document.iv)
      document.digitalSignature = false) :
    verifyDocumentSignaturee store userId docId true = [.jsonVerdict 200 true false] ∧
    downloadDocument store userId userName docId =
      [.logEvent { action := "DOWNLOAD_VERIFICATION_FAILED", userId := userId, documentId := some id, userName := userName, signatureVerified := some true },
       .nextError "Download failed: Document signature verification failed" 500] ∧
    sendsPlaintext (downloadDocument store userId userName docId) = false := by
  have hdl : downloadDocument store userId userName docId =
      [.logEvent { action := "DOWNLOAD_VERIFICATION_FAILED", userId := userId, documentId := some id, userName := userName, signatureVerified := some true },
       .nextError "Download failed: Document signature verification failed" 500] := by
    simp [downloadDocument, hfind, hkey, hhash, hsig]
  refine ⟨?_, hdl, ?_⟩
  · simp [verifyDocumentSignaturee, hfind, hkey, hhash, hsig]
  · rw [hdl]; rfl

/-- C2 amended witness: the amended behaviour evaluated on the concrete
bad-signature document. -/
theorem c2_amended_witness :
    verifyDocumentSignaturee [(7, c2Doc)] 1 7 true = [.jsonVerdict 200 true false] ∧
    downloadDocument [(7, c2Doc)] 1 "u" 7 =
      [.logEvent { action := "DOWNLOAD_VERIFICATION_FAILED", userId := 1, documentId := some 7, userName := "u", signatureVerified := some true },
       .nextError "Download failed: Document signature verification failed" 500] ∧
    sendsPlaintext (downloadDocument [(7, c2Doc)] 1 "u" 7) = false :=
  c2_amended [(7, c2Doc)] 1 7 7 "u" c2Doc c2Key (by decide) (by decide) (by decide) (by decide)

/-- C3: when decryption succeeds but the recomputed digest of the decrypted
bytes differs from the stored digest, both the download and the verify handlers
abort with the integrity-violation error and the plaintext is never released. -/
theorem c3_integrity_violation_aborts (store : Store) (userId docId id : Nat)
    (userName : String) (document : Document) (aesKey : Bytes)
    (hfind : findDocument store docId userId = some (id, document))
    (hkey : decryptKey document.encryptedKey masterKey = .ok aesKey)
    (hhash : generateHash (decrypt document.encryptedData aesKey document.iv) ≠
      document.sha256Hash) :
    downloadDocument store userId userName docId =
      [.nextError ("Download failed: " ++ integrityErrMsg) 500] ∧
    verifyDocumentSignaturee store userId docId true =
      [.nextError integrityErrMsg 400] ∧
    sendsPlaintext (downloadDocument store userId userName docId) = false := by
  have hb : (generateHash (decrypt document.encryptedData aesKey document.iv) ==
      document.sha256Hash) = false := by
    simp [hhash]
  have hdl : downloadDocument store userId userName docId =
      [.nextError ("Download failed: " ++ integrityErrMsg) 500] := by
    simp [downloadDocument, hfind, hkey, hb]
  refine ⟨hdl, ?_, ?_⟩
  · simp [verifyDocumentSignaturee, hfind, hkey, hb]
  · rw [hdl]; rfl

/-- C3 witness: the integrity-violation abort evaluated on the concrete
tampered document. -/
theorem c3_integrity_violation_aborts_witness :
    downloadDocument [(9, c3Doc)] 2 "u" 9 =
      [.nextError ("Download failed: " ++ integrityErrMsg) 500] ∧
    verifyDocumentSignaturee [(9, c3Doc)] 2 9 true =
      [.nextError integrityErrMsg 400] ∧
    sendsPlaintext (downloadDocument [(9, c3Doc)] 2 "u" 9) = false :=
  c3_integrity_violation_aborts [(9, c3Doc)] 2 9 9 "u" c3Doc c2Key
    (by decide) (by decide) (by decide)

/-- C10: when no record matches the requested identifier and user, the download
handler first raises the not-found error without returning, falls through to
dereference the null record, and its final emission is the generic
download-failure error path, not the not-found error alone. -/
theorem c10_notfound_fallthrough (store : Store) (userId docId : Nat)
    (userName : String)
    (hnone : findDocument store docId userId = none) :
    downloadDocument store userId userName docId =
      [.nextError "File not found" 404,
       .nextError ("Download failed: " ++ nullReadMsg) 500] ∧
    (downloadDocument store userId userName docId).getLast? =
      some (.nextError ("Download failed: " ++ nullReadMsg) 500) := by
  have hdl : downloadDocument store userId userName docId =
      [.nextError "File not found" 404,
       .nextError ("Download failed: " ++ nullReadMsg) 500] := by
    simp [downloadDocument, hnone]
  exact ⟨hdl, by rw [hdl]; rfl⟩

/-- C10 witness: the fallthrough evaluated on the empty store. -/
theorem c10_notfound_fallthrough_witness :
    downloadDocument [] 1 "u" 3 =
      [.nextError "File not found" 404,
       .nextError ("Download failed: " ++ nullReadMsg) 500] ∧
    (downloadDocument [] 1 "u" 3).getLast? =
      some (.nextError ("Download failed: " ++ nullReadMsg) 500) :=
  c10_notfound_fallthrough [] 1 3 "u" (by decide)

/-- C4: when verify or download fails from a key-unwrap failure or an integrity
violation, the surfaced error is specific to that failure and distinct from the
generic not-found and validation messages of the same handlers. -/
theorem c4_distinct_error_kinds (store : Store) (userId docId id : Nat)
    (userName : String) (document : Document)
    (hfind : findDocument store docId userId = some (id, document)) :
    (decryptKey document.encryptedKey masterKey = .error CryptoError.keyUnwrapFailure →
      verifyDocumentSignaturee store userId docId true =
        [.nextError "Document verification processing error" 500] ∧
      downloadDocument store userId userName docId =
        [.nextError ("Download failed: " ++ keyUnwrapMsg) 500]) ∧
    (∀ aesKey : Bytes, decryptKey document.encryptedKey masterKey = .ok aesKey →
      generateHash (decrypt document.encryptedData aesKey document.iv) ≠
        document.sha256Hash →
      verifyDocumentSignaturee store userId docId true =
        [.nextError integrityErrMsg 400] ∧
      downloadDocument store userId userName docId =
        [.nextError ("Download failed: " ++ integrityErrMsg) 500]) ∧
    ("Document verification processing error" ≠ "Document not found or access denied" ∧
     "Document verification processing error" ≠ "Invalid document ID format" ∧
     "Document verification processing error" ≠ "Document missing required verification data" ∧
     integrityErrMsg ≠ "Document not found or access denied" ∧
     integrityErrMsg ≠ "Invalid document ID format" ∧
     integrityErrMsg ≠ "Document missing required verification data" ∧
     "Download failed: " ++ keyUnwrapMsg ≠ "File not found" ∧
     "Download failed: " ++ integrityErrMsg ≠ "File not found") := by
  refine ⟨?_, ?_, ?_⟩
  · intro hkey
    constructor
    · simp [verifyDocumentSignaturee, hfind, hkey]
    · simp [downloadDocument, hfind, hkey]
  · intro aesKey hkey hhash
    have hb : (generateHash (decrypt document.encryptedData aesKey document.iv) ==
        document.sha256Hash) = false := by
      simp [hhash]
    constructor
    · simp [verifyDocumentSignaturee, hfind, hkey, hb]
    · simp [downloadDocument, hfind, hkey, hb]
  · refine ⟨by decide, by decide, by decide, by decide, by decide, by decide, by decide, by decide⟩

/-- C4 witness: the distinct error kinds evaluated on a concrete record whose
key unwrap fails. -/
theorem c4_distinct_error_kinds_witness :
    (decryptKey c4Doc.encryptedKey masterKey = .error CryptoError.keyUnwrapFailure →
      verifyDocumentSignaturee [(4, c4Doc)] 3 4 true =
        [.nextError "Document verification processing error" 500] ∧
      downloadDocument [(4, c4Doc)] 3 "u" 4 =
        [.nextError ("Download failed: " ++ keyUnwrapMsg) 500]) ∧
    (∀ aesKey : Bytes, decryptKey c4Doc.encryptedKey masterKey = .ok aesKey →
      generateHash (decrypt c4Doc.encryptedData aesKey c4Doc.iv) ≠ c4Doc.sha256Hash →
      verifyDocumentSignaturee [(4, c4Doc)] 3 4 true =
        [.nextError integrityErrMsg 400] ∧
      downloadDocument [(4, c4Doc)] 3 "u" 4 =
        [.nextError ("Download failed: " ++ integrityErrMsg) 500]) ∧
    ("Document verification processing error" ≠ "Document not found or access denied" ∧
     "Document verification processing error" ≠ "Invalid document ID format" ∧
     "Document verification processing error" ≠ "Document missing required verification data" ∧
     integrityErrMsg ≠ "Document not found or access denied" ∧
     integrityErrMsg ≠ "Invalid document ID format" ∧
     integrityErrMsg ≠ "Document missing required verification data" ∧
     "Download failed: " ++ keyUnwrapMsg ≠ "File not found" ∧
     "Download failed: " ++ integrityErrMsg ≠ "File not found") :=
  c4_distinct_error_kinds [(4, c4Doc)] 3 4 4 "u" c4Doc (by decide)

/-- C6: seal computes the digest and detached signature over the original
plaintext, encrypts it under the fresh key with the fresh iv, wraps the key
under the master key, and either persists exactly one record with all crypto
fields populated together or fails with the store unchanged and no record. -/
theorem c6_seal_atomic (store : Store) (userId newId : Nat) (userName : String)
    (f : UploadFile) (rndKey rndIv : Bytes) (createOk : Bool)
    (hne : f.buffer ≠ []) :
    (createOk = true →
      (uploadDocument store userId userName (some f) rndKey rndIv newId createOk).2 =
        store ++ [(newId, mkSealedDocument userId f rndKey rndIv)] ∧
      (mkSealedDocument userId f rndKey rndIv).sha256Hash = generateHash f.buffer ∧
      (mkSealedDocument userId f rndKey rndIv).digitalSignature =
        (createDocumentSignature f.buffer).1 ∧
      (mkSealedDocument userId f rndKey rndIv).publicKeyFingerprint =
        (createDocumentSignature f.buffer).2 ∧
      (mkSealedDocument userId f rndKey rndIv).encryptedData =
        (encrypt f.buffer rndKey rndIv).1 ∧
      (mkSealedDocument userId f rndKey rndIv).iv = rndIv ∧
      (mkSealedDocument userId f rndKey rndIv).encryptedKey =
        encryptKey rndKey masterKey) ∧
    (createOk = false →
      (uploadDocument store userId userName (some f) rndKey rndIv newId createOk).2 =
        store ∧
      (uploadDocument store userId userName (some f) rndKey rndIv newId createOk).1 =
        [.nextError "Upload failed: database error" 500]) := by
  constructor
  · intro hok
    subst hok
    exact ⟨rfl, rfl, rfl, rfl, rfl, rfl, rfl⟩
  · intro hok
    subst hok
    exact ⟨rfl, rfl⟩

/-- C6 witness: seal atomicity evaluated on a concrete one-byte file. -/
theorem c6_seal_atomic_witness :
    (true = true →
      (uploadDocument [] 1 "u" (some c6File) [8] [9] 2 true).2 =
        [] ++ [(2, mkSealedDocument 1 c6File [8] [9])] ∧
      (mkSealedDocument 1 c6File [8] [9]).sha256Hash = generateHash c6File.buffer ∧
      (mkSealedDocument 1 c6File [8] [9]).digitalSignature =
        (createDocumentSignature c6File.buffer).1 ∧
      (mkSealedDocument 1 c6File [8] [9]).publicKeyFingerprint =
        (createDocumentSignature c6File.buffer).2 ∧
      (mkSealedDocument 1 c6File [8] [9]).encryptedData =
        (encrypt c6File.buffer [8] [9]).1 ∧
      (mkSealedDocument 1 c6File [8] [9]).iv = [9] ∧
      (mkSealedDocument 1 c6File [8] [9]).encryptedKey = encryptKey [8] masterKey) ∧
    (true = false →
      (uploadDocument [] 1 "u" (some c6File) [8] [9] 2 true).2 = [] ∧
      (uploadDocument [] 1 "u" (some c6File) [8] [9] 2 true).1 =
        [.nextError "Upload failed: database error" 500]) :=
  c6_seal_atomic [] 1 2 "u" c6File [8] [9] true (by decide)

/-- C8: two seal runs on the same plaintext whose explicit randomness draws
differ never share the iv or the per-document key, and the wrapped keys of the
two sealed records differ even though both are wrapped under the one master
key. -/
theorem c8_key_isolation (userId1 userId2 : Nat) (f : UploadFile)
    (k1 k2 iv1 iv2 : Bytes)
    (hb1 : ∀ b ∈ k1, b < 256) (hb2 : ∀ b ∈ k2, b < 256)
    (hk : k1 ≠ k2) (hiv : iv1 ≠ iv2) :
    (mkSealedDocument userId1 f k1 iv1).iv ≠ (mkSealedDocument userId2 f k2 iv2).iv ∧
    (mkSealedDocument userId1 f k1 iv1).encryptedKey ≠
      (mkSealedDocument userId2 f k2 iv2).encryptedKey := by
  constructor
  · simpa [mkSealedDocument, encrypt] using hiv
  · intro h
    exact hk (encryptKey_inj masterKey k1 k2 hb1 hb2 (by simpa [mkSealedDocument] using h))

/-- C8 witness: key isolation evaluated on two concrete randomness draws. -/
theorem c8_key_isolation_witness :
    (mkSealedDocument 1 c6File [1] [3]).iv ≠ (mkSealedDocument 1 c6File [2] [4]).iv ∧
    (mkSealedDocument 1 c6File [1] [3]).encryptedKey ≠
      (mkSealedDocument 1 c6File [2] [4]).encryptedKey :=
  c8_key_isolation 1 1 c6File [1] [2] [3] [4] (by decide) (by decide) (by decide) (by decide)

/-- C9 counterexample: an empty (zero-byte) file is not rejected; upload seals
it and persists a record, refuting that empty plaintext fails with an
InputError before any sealing work. -/
theorem c9_counterexample :
    (uploadDocument [] 1 "u" (some c9File) [3] [4] 5 true).1 =
      [.logEvent { action := "UPLOAD", userId := 1, documentId := some 5, userName := "u", signatureVerified := some true },
       .jsonCreated 201 5] ∧
    (uploadDocument [] 1 "u" (some c9File) [3] [4] 5 true).2 =
      [(5, mkSealedDocument 1 c9File [3] [4])] :=
  ⟨rfl, rfl⟩

/-- C9 amended: a missing file makes upload raise the InputError first, as the
error the caller sees, with no sealing work and the store unchanged, though the
missing return lets a second wrapped error follow; an empty file is not
rejected and is sealed normally. -/
theorem c9_amended (store : Store) (userId newId : Nat) (userName : String)
    (rndKey rndIv : Bytes) (createOk : Bool) :
    (uploadDocument store userId userName none rndKey rndIv newId createOk).1 =
      [.nextError "No file uploaded" 400,
       .nextError ("Upload failed: " ++ destructureNullMsg) 500] ∧
    (uploadDocument store userId userName none rndKey rndIv newId createOk).2 = store ∧
    (∀ f : UploadFile, f.buffer = [] →
      (uploadDocument store userId userName (some f) rndKey rndIv newId true).2 =
        store ++ [(newId, mkSealedDocument userId f rndKey rndIv)]) := by
  refine ⟨rfl, rfl, ?_⟩
  intro f _
  rfl

/-- C9 amended witness: the amended upload behaviour evaluated on the missing
file and on the concrete empty file. -/
theorem c9_amended_witness :
    (uploadDocument [] 1 "u" none [3] [4] 5 true).1 =
      [.nextError "No file uploaded" 400,
       .nextError ("Upload failed: " ++ destructureNullMsg) 500] ∧
    (uploadDocument [] 1 "u" none [3] [4] 5 true).2 = [] ∧
    (uploadDocument [] 1 "u" (some c9File) [3] [4] 5 true).2 =
      [] ++ [(5, mkSealedDocument 1 c9File [3] [4])] :=
  ⟨(c9_amended [] 1 5 "u" [3] [4] true).1,
   (c9_amended [] 1 5 "u" [3] [4] true).2.1,
   (c9_amended [] 1 5 "u" [3] [4] true).2.2 c9File rfl⟩

/-- Renaming rewrites only the originalName of the matching records, so the
store lookup finds exactly the renamed record. -/
theorem findDocument_rename (store : Store) (docId userId : Nat) (nm : String) :
    findDocument (store.map (fun p =>
      if p.1 == docId && p.2.userId == userId then
        (p.1, { p.2 with originalName := nm })
      else p)) docId userId =
    (findDocument store docId userId).map
      (fun q => (q.1, { q.2 with originalName := nm })) := by
  unfold findDocument
  rw [List.find?_map]
  have hpred : ((fun p => p.1 == docId && p.2.userId == userId) ∘ (fun p : Nat × Document =>
      if p.1 == docId && p.2.userId == userId then
        (p.1, { p.2 with originalName := nm })
      else p)) = (fun p => p.1 == docId && p.2.userId == userId) := by
    funext p
    by_cases h : (p.1 == docId && p.2.userId == userId) = true
    · have h' : p.1 = docId ∧ p.2.userId = userId := by simpa using h
      simp [Function.comp_apply, h'.1, h'.2]
    · simp only [Function.comp_apply, if_neg h]
  rw [hpred]
  cases hfind : List.find? (fun p => p.1 == docId && p.2.userId == userId) store with
  | none => rfl
  | some q =>
      have h' : q.1 = docId ∧ q.2.userId = userId := by
        simpa using List.find?_some hfind
      simp [h'.1, h'.2]

/-- C7: renaming a document changes only its display name: every cryptographic
field of the stored record stays byte-identical, and the download and verify
handlers behave on the renamed store exactly as on the original, so a
subsequent open still succeeds with integrity true whenever it did before. -/
theorem c7_rename_preserves_crypto (store : Store) (userId docId id : Nat)
    (userName : String) (document : Document) (n : String)
    (hn : jsTrim n ≠ "")
    (hfind : findDocument store docId userId = some (id, document)) :
    findDocument (updateDocument store userId userName docId (some n)).2 docId userId =
      some (id, { document with originalName := jsTrim n }) ∧
    ({ document with originalName := jsTrim n } : Document).encryptedData =
      document.encryptedData ∧
    ({ document with originalName := jsTrim n } : Document).iv = document.iv ∧
    ({ document with originalName := jsTrim n } : Document).encryptedKey =
      document.encryptedKey ∧
    ({ document with originalName := jsTrim n } : Document).sha256Hash =
      document.sha256Hash ∧
    ({ document with originalName := jsTrim n } : Document).digitalSignature =
      document.digitalSignature ∧
    downloadDocument (updateDocument store userId userName docId (some n)).2
        userId userName docId =
      downloadDocument store userId userName docId ∧
    verifyDocumentSignaturee (updateDocument store userId userName docId (some n)).2
        userId docId true =
      verifyDocumentSignaturee store userId docId true := by
  have hstore : (updateDocument store userId userName docId (some n)).2 =
      store.map (fun p =>
        if p.1 == docId && p.2.userId == userId then
          (p.1, { p.2 with originalName := jsTrim n })
        else p) := by
    simp [updateDocument, hn, hfind]
  have hfind' : findDocument (updateDocument store userId userName docId (some n)).2
      docId userId = some (id, { document with originalName := jsTrim n }) := by
    rw [hstore, findDocument_rename, hfind]
    rfl
  refine ⟨hfind', rfl, rfl, rfl, rfl, rfl, ?_, ?_⟩
  · simp only [downloadDocument, hfind', hfind]
  · simp only [verifyDocumentSignaturee, hfind', hfind]

/-- C7 witness: the rename frame property evaluated on a concrete sealed
record. -/
theorem c7_rename_preserves_crypto_witness :
    findDocument (updateDocument [(6, c7Doc)] 4 "u" 6 (some " report.pdf ")).2 6 4 =
      some (6, { c7Doc with originalName := jsTrim " report.pdf " }) ∧
    ({ c7Doc with originalName := jsTrim " report.pdf " } : Document).encryptedData =
      c7Doc.encryptedData ∧
    ({ c7Doc with originalName := jsTrim " report.pdf " } : Document).iv = c7Doc.iv ∧
    ({ c7Doc with originalName := jsTrim " report.pdf " } : Document).encryptedKey =
      c7Doc.encryptedKey ∧
    ({ c7Doc with originalName := jsTrim " report.pdf " } : Document).sha256Hash =
      c7Doc.sha256Hash ∧
    ({ c7Doc with originalName := jsTrim " report.pdf " } : Document).digitalSignature =
      c7Doc.digitalSignature ∧
    downloadDocument (updateDocument [(6, c7Doc)] 4 "u" 6 (some " report.pdf ")).2 4 "u" 6 =
      downloadDocument [(6, c7Doc)] 4 "u" 6 ∧
    verifyDocumentSignaturee (updateDocument [(6, c7Doc)] 4 "u" 6 (some " report.pdf ")).2 4 6 true =
      verifyDocumentSignaturee [(6, c7Doc)] 4 6 true :=
  c7_rename_preserves_crypto [(6, c7Doc)] 4 6 6 "u" c7Doc " report.pdf "
    (by decide) (by decide)

/-- No code path of the verify handler writes an audit-log entry. -/
theorem verify_no_log (store : Store) (userId docId : Nat) (validId : Bool) :
    hasLog (verifyDocumentSignaturee store userId docId validId) = false := by
  cases validId with
  | false => rfl
  | true =>
      cases hfind : findDocument store docId userId with
      | none => simp [verifyDocumentSignaturee, hfind, hasLog]
      | some q =>
          obtain ⟨i, d⟩ := q
          cases hkey : decryptKey d.encryptedKey masterKey with
          | error e => simp [verifyDocumentSignaturee, hfind, hkey, hasLog]
          | ok aesKey =>
              cases hh : (generateHash (decrypt d.encryptedData aesKey d.iv) == d.sha256Hash) with
              | false => simp [verifyDocumentSignaturee, hfind, hkey, hh, hasLog]
              | true =>
                  cases hv : verifyDocumentSignature (decrypt d.encryptedData aesKey d.iv)
                      d.digitalSignature with
                  | false => simp [verifyDocumentSignaturee, hfind, hkey, hh, hv, hasLog]
                  | true => simp [verifyDocumentSignaturee, hfind, hkey, hh, hv, hasLog]

/-- C5 counterexample: a verify attempt completes successfully yet the audit
sink receives no event at all, refuting that every verify attempt is logged. -/
theorem c5_counterexample :
    verifyDocumentSignaturee [(3, c5Doc)] 1 3 true = [.jsonVerdict 200 true true] ∧
    hasLog (verifyDocumentSignaturee [(3, c5Doc)] 1 3 true) = false := by
  decide

/-- C5 amended: successful seal, open, rename, and delete attempts each emit a
structured audit event carrying the actor identity, action kind, and target
identifier; verify attempts emit no audit event on any path, failed attempts
other than a failed-signature download emit none, and the failed-signature
download event reports signatureVerified true rather than the true outcome. -/
theorem c5_amended :
    (∀ (store : Store) (userId : Nat) (userName : String) (f : UploadFile)
        (rndKey rndIv : Bytes) (newId : Nat),
      Event.logEvent { action := "UPLOAD", userId := userId, documentId := some newId, userName := userName, signatureVerified := some true }
        ∈ (uploadDocument store userId userName (some f) rndKey rndIv newId true).1) ∧
    (∀ (store : Store) (userId docId id : Nat) (userName : String)
        (document : Document) (aesKey : Bytes),
      findDocument store docId userId = some (id, document) →
      decryptKey document.encryptedKey masterKey = .ok aesKey →
      generateHash (decrypt document.encryptedData aesKey document.iv) =
        document.sha256Hash →
      verifyDocumentSignature (decrypt document.encryptedData aesKey document.iv)
        document.digitalSignature = true →
      Event.logEvent { action := "DOWNLOAD", userId := userId, documentId := some id, userName := userName, signatureVerified := some true }
        ∈ downloadDocument store userId userName docId) ∧
    (∀ (store : Store) (userId docId id : Nat) (userName : String)
        (document : Document) (n : String),
      jsTrim n ≠ "" → findDocument store docId userId = some (id, document) →
      Event.logEvent { action := "UPDATE", userId := userId, documentId := some id, userName := userName, signatureVerified := none }
        ∈ (updateDocument store userId userName docId (some n)).1) ∧
    (∀ (store : Store) (userId docId id : Nat) (userName : String)
        (document : Document),
      findDocument store docId userId = some (id, document) →
      Event.logEvent { action := "DELETE", userId := userId, documentId := some id, userName := userName, signatureVerified := none }
        ∈ (deleteDocument store userId userName docId).1) ∧
    (∀ (store : Store) (userId docId : Nat) (validId : Bool),
      hasLog (verifyDocumentSignaturee store userId docId validId) = false) ∧
    (∀ (store : Store) (userId docId id : Nat) (userName : String)
        (document : Document) (aesKey : Bytes),
      findDocument store docId userId = some (id, document) →
      decryptKey document.encryptedKey masterKey = .ok aesKey →
      generateHash (decrypt document.encryptedData aesKey document.iv) =
        document.sha256Hash →
      verifyDocumentSignature (decrypt document.encryptedData aesKey document.iv)
        document.digitalSignature = false →
      Event.logEvent { action := "DOWNLOAD_VERIFICATION_FAILED", userId := userId, documentId := some id, userName := userName, signatureVerified := some true }
        ∈ downloadDocument store userId userName docId) ∧
    (∀ (store : Store) (userId : Nat) (userName : String) (rndKey rndIv : Bytes)
        (newId : Nat) (createOk : Bool),
      hasLog (uploadDocument store userId userName none rndKey rndIv newId createOk).1 =
        false) ∧
    (∀ (store : Store) (userId : Nat) (userName : String) (f : UploadFile)
        (rndKey rndIv : Bytes) (newId : Nat),
      hasLog (uploadDocument store userId userName (some f) rndKey rndIv newId false).1 =
        false) ∧
    (∀ (store : Store) (userId docId : Nat) (userName : String),
      findDocument store docId userId = none →
      hasLog (downloadDocument store userId userName docId) = false) ∧
    (∀ (store : Store) (userId docId id : Nat) (userName : String)
        (document : Document),
      findDocument store docId userId = some (id, document) →
      decryptKey document.encryptedKey masterKey = .error CryptoError.keyUnwrapFailure →
      hasLog (downloadDocument store userId userName docId) = false) ∧
    (∀ (store : Store) (userId docId id : Nat) (userName : String)
        (document : Document) (aesKey : Bytes),
      findDocument store docId userId = some (id, document) →
      decryptKey document.encryptedKey masterKey = .ok aesKey →
      generateHash (decrypt document.encryptedData aesKey document.iv) ≠
        document.sha256Hash →
      hasLog (downloadDocument store userId userName docId) = false) ∧
    (∀ (store : Store) (userId docId : Nat) (userName : String),
      hasLog (updateDocument store userId userName docId none).1 = false) ∧
    (∀ (store : Store) (userId docId : Nat) (userName : String) (n : String),
      jsTrim n = "" →
      hasLog (updateDocument store userId userName docId (some n)).1 = false) ∧
    (∀ (store : Store) (userId docId : Nat) (userName : String) (n : String),
      findDocument store docId userId = none →
      hasLog (updateDocument store userId userName docId (some n)).1 = false) ∧
    (∀ (store : Store) (userId docId : Nat) (userName : String),
      findDocument store docId userId = none →
      hasLog (deleteDocument store userId userName docId).1 = false) := by
  refine ⟨?_, ?_, ?_, ?_, ?_, ?_, ?_, ?_, ?_, ?_, ?_, ?_, ?_, ?_, ?_⟩
  · intro store userId userName f rndKey rndIv newId
    simp [uploadDocument]
  · intro store userId docId id userName document aesKey hfind hkey hhash hsig
    simp [downloadDocument, hfind, hkey, hhash, hsig]
  · intro store userId docId id userName document n hn hfind
    simp [updateDocument, hn, hfind]
  · intro store userId docId id userName document hfind
    simp [deleteDocument, hfind]
  · intro store userId docId validId
    exact verify_no_log store userId docId validId
  · intro store userId docId id userName document aesKey hfind hkey hhash hsig
    simp [downloadDocument, hfind, hkey, hhash, hsig]
  · intro store userId userName rndKey rndIv newId createOk
    rfl
  · intro store userId userName f rndKey rndIv newId
    rfl
  · intro store userId docId userName hnone
    simp [downloadDocument, hnone, hasLog]
  · intro store userId docId id userName document hfind hkey
    simp [downloadDocument, hfind, hkey, hasLog]
  · intro store userId docId id userName document aesKey hfind hkey hhash
    have hb : (generateHash (decrypt document.encryptedData aesKey document.iv) ==
        document.sha256Hash) = false := by
      simp [hhash]
    simp [downloadDocument, hfind, hkey, hb, hasLog]
  · intro store userId docId userName
    rfl
  · intro store userId docId userName n ht
    simp [updateDocument, ht, hasLog]
  · intro store userId docId userName n hnone
    by_cases ht : jsTrim n = ""
    · simp [updateDocument, ht, hasLog]
    · simp [updateDocument, ht, hnone, hasLog]
  · intro store userId docId userName hnone
    simp [deleteDocument, hnone, hasLog]

/-- C5 amended witness: the audit behaviour evaluated at concrete inputs, one
conjunct per kind of attempt. -/
theorem c5_amended_witness :
    hasLog (verifyDocumentSignaturee [(3, c5Doc)] 1 3 true) = false ∧
    Event.logEvent { action := "UPLOAD", userId := 1, documentId := some 2, userName := "u", signatureVerified := some true }
      ∈ (uploadDocument [] 1 "u" (some c5File) [11] [12] 2 true).1 ∧
    Event.logEvent { action := "DELETE", userId := 1, documentId := some 3, userName := "u", signatureVerified := none }
      ∈ (deleteDocument [(3, c5Doc)] 1 "u" 3).1 ∧
    hasLog (uploadDocument [] 1 "u" none [11] [12] 2 true).1 = false ∧
    hasLog (downloadDocument [] 1 "u" 9) = false ∧
    hasLog (deleteDocument [] 1 "u" 9).1 = false :=
  ⟨c5_amended.2.2.2.2.1 [(3, c5Doc)] 1 3 true,
   c5_amended.1 [] 1 "u" c5File [11] [12] 2,
   c5_amended.2.2.2.1 [(3, c5Doc)] 1 3 3 "u" c5Doc (by decide),
   c5_amended.2.2.2.2.2.2.1 [] 1 "u" [11] [12] 2 true,
   c5_amended.2.2.2.2.2.2.2.2.1 [] 1 9 "u" (by decide),
   c5_amended.2.2.2.2.2.2.2.2.2.2.2.2.2.2 [] 1 9 "u" (by decide)⟩

end DocPipeline
